import Mathlib

/-!
Verification of `read_graphql.py`, a single-file script that queries the
AniList GraphQL API, extracts `[romaji, english, start_date]` rows from the
response, sorts them by English title, and prints/copies a tab-separated table.

The Python source is shallowly embedded below: pure data flow becomes Lean
functions, the mutable global `VARIABLES` becomes explicit state passing, and
the side effects of a run (console prints, clipboard writes, `exit()`) are
collected in a result record. The HTTP transport (`requests.post`) is external
to the script; it is represented by the `HttpResponse` value it yields, which
is passed to the embedded functions as an explicit argument.
-/

namespace ReadGraphql

/-- `startDate` / `endDate` sub-object of a media entry; each component is
independently nullable in the response (`none` = JSON `null`). -/
structure StartDate where
  year : Option Int
  month : Option Int
  day : Option Int
deriving DecidableEq

/-- `title` sub-object of a media entry. The outer `Option` records whether the
key is present in the JSON object at all; the inner `Option` records whether
its value is `null`. So `none` = key absent, `some none` = key present with
value `null`, `some (some s)` = key present with string value `s`. -/
structure Title where
  romaji : Option (Option String)
  english : Option (Option String)
  native : Option (Option String)
deriving DecidableEq

/-- One media entry of the response. The query also fetches numeric and
enumerated metadata fields (`episodes`, `genres`, `stats`, ...) that the script
never reads downstream; they are omitted from the embedding. -/
structure Media where
  title : Title
  startDate : StartDate
  endDate : StartDate
deriving DecidableEq

/-- The `Page` object of the GraphQL envelope. -/
structure Page where
  media : List Media
deriving DecidableEq

/-- The `data` object of the GraphQL envelope. -/
structure GraphqlData where
  Page : Page
deriving DecidableEq

/-- A parsed response body `{"data": {"Page": {"media": [...]}}}`. -/
structure ResponseData where
  data : GraphqlData
deriving DecidableEq

/-- One extracted row `[romaji, english, start_date_str]` (the Python code
appends a three-element list; it is embedded as a record with one field per
position, `english_name` being index 1, the sort key). -/
structure Row where
  romaji_name : String
  english_name : String
  start_date_str : String
deriving DecidableEq

/-- `start_date_format = "{}.{}.{}".format`: Python's `str.format` renders the
three integer arguments in decimal, joined by dots. -/
def start_date_format (a b c : Int) : String :=
  toString a ++ "." ++ toString b ++ "." ++ toString c

/-- The loop body of `process_graphql` (lines 123-145): resolve the start date
(requiring all three of year/month/day to be non-`null`, else the fallback
`start_date_format(1, 1, 1999)`), and the romaji/english titles (the value when
the key is present and its value is not `null`, else the initial `""`). -/
def extract_row (element : Media) : Row :=
  let start_date := element.startDate
  -- `if start_date['year'] is not None and ... month ... and ... day ...`
  let start_date_str :=
    match start_date.year, start_date.month, start_date.day with
    | some y, some m, some d => start_date_format d m y
    | _, _, _ => start_date_format 1 1 1999
  -- `if "romaji" in element['title'] and element['title']['romaji'] is not None`
  let romaji_name :=
    match element.title.romaji with
    | some (some v) => v
    | _ => ""
  -- `if "english" in element['title'] and element['title']['english'] is not None`
  let english_name :=
    match element.title.english with
    | some (some v) => v
    | _ => ""
  { romaji_name := romaji_name, english_name := english_name, start_date_str := start_date_str }

/-- Python `str` comparison is lexicographic on Unicode code points, i.e. the
lexicographic order on the lists of characters; embedded as `<` on `.data`. -/
def py_str_lt (a b : String) : Prop :=
  a.data < b.data

/-- The placement criterion of Python's stable `sorted(..., key=lambda x: x[1])`:
an element `a` may be placed before `b` exactly when `not (key(b) < key(a))`,
i.e. `key(a) <= key(b)` in the induced total preorder on English titles. -/
def rowLe (a b : Row) : Prop :=
  ¬ py_str_lt b.english_name a.english_name

instance : DecidableRel py_str_lt :=
  fun a b => inferInstanceAs (Decidable (a.data < b.data))

instance : DecidableRel rowLe :=
  fun a b => inferInstanceAs (Decidable (¬ py_str_lt b.english_name a.english_name))

instance : IsTotal Row rowLe :=
  ⟨fun a b => (le_total a.english_name.data b.english_name.data).imp not_lt.mpr not_lt.mpr⟩

instance : IsTrans Row rowLe :=
  ⟨fun _ _ _ hab hbc => not_lt.mpr (le_trans (not_lt.mp hab) (not_lt.mp hbc))⟩

/-- `process_graphql` (lines 105-147): walk `response_data['data']['Page']['media']`,
extract one row per entry, and return `sorted(extracted_elements, key=lambda x: x[1])`.
Python's `sorted` is a stable sort comparing keys with `<`; a stable sort is
extensionally unique, and is embedded as insertion sort with `rowLe`. -/
def process_graphql (response_data : ResponseData) : List Row :=
  let media_object := response_data.data.Page.media
  let extracted_elements := media_object.map extract_row
  List.insertionSort rowLe extracted_elements

/-- The observable effects of `tabulate_anichart_data`: the arguments of its
`print` calls in order, and the string handed to `pyperclip.copy`. -/
structure TabulateResult where
  printed : List String
  clipboard : String
deriving DecidableEq

/-- `tabulate_anichart_data` (lines 150-174): accumulate
`"{} \t {} \t {} \n".format(*entry)` over the rows, print the result between
separator lines, copy it to the clipboard, and print the element count. -/
def tabulate_anichart_data (data_set : List Row) : TabulateResult :=
  let string_to_copy :=
    data_set.foldl
      (fun acc entry =>
        acc ++ (entry.romaji_name ++ " \t " ++ entry.english_name ++ " \t "
          ++ entry.start_date_str ++ " \n"))
      ""
  { printed := ["\n--------------------\n",
                string_to_copy,
                "\n\n--------------------\n\n",
                "Elements: " ++ toString data_set.length],
    clipboard := string_to_copy }

/-- The global parameter mapping `VARIABLES` (one field per key). -/
structure Variables where
  status : List String
  format : List String
  year : Int
  season : String
deriving DecidableEq

/-- The module-level initial value of `VARIABLES` (lines 56-61). -/
def VARIABLES : Variables :=
  { status := ["RELEASING", "NOT_YET_RELEASED"],
    format := ["TV", "MOVIE", "TV_SHORT", "OVA", "ONA"],
    year := 2024,
    season := "SUMMER" }

/-- Python truthiness of an optional list argument: `None` and `[]` are falsy. -/
def truthyList (v : Option (List String)) : Bool :=
  match v with
  | none => false
  | some l => !l.isEmpty

/-- Python truthiness of an optional int argument: `None` and `0` are falsy. -/
def truthyInt (v : Option Int) : Bool :=
  match v with
  | none => false
  | some n => n != 0

/-- Python truthiness of an optional string argument: `None` and `""` are falsy. -/
def truthyStr (v : Option String) : Bool :=
  match v with
  | none => false
  | some s => !s.isEmpty

/-- The parameter-override block of `extract_graphql_data` (lines 193-201):
each `if x_var: VARIABLES[...] = x_var` assigns the entry exactly when the
argument is truthy. -/
def override_variables (vars : Variables) (status_var : Option (List String))
    (format_var : Option (List String)) (year_var : Option Int)
    (season_var : Option String) : Variables :=
  let vars := if truthyList status_var then { vars with status := status_var.getD vars.status } else vars
  let vars := if truthyList format_var then { vars with format := format_var.getD vars.format } else vars
  let vars := if truthyInt year_var then { vars with year := year_var.getD vars.year } else vars
  let vars := if truthyStr season_var then { vars with season := season_var.getD vars.season } else vars
  vars

/-- An HTTP response as `requests.post` delivers it: a status code and (for the
paths the script exercises) the JSON body that `response.json()` parses to. -/
structure HttpResponse where
  status_code : Nat
  json : ResponseData
deriving DecidableEq

/-- The module-level GraphQL query text (lines 7-53). -/
def QUERY_STRING : String :=
  "\n\nquery GetMedia($status: [MediaStatus!], $format: [MediaFormat!], $season: MediaSeason, $year: Int)\x7b\n    Page\x7b\n        media(status_in: $status, format_in: $format, season: $season, seasonYear: $year)\x7b\n            title\x7b\n                romaji\n                english\n                native\n            \x7d\n            id\n            startDate\x7b\n                year\n                month\n                day\n            \x7d\n            endDate\x7b\n                year\n                month\n                day\n            \x7d\n            episodes\n            seasonInt\n            seasonYear\n            season\n            format\n            status\n            duration\n            genres\n            meanScore\n            popularity\n            trending\n            stats\x7b\n                scoreDistribution\x7b\n                    score\n                    amount\n                \x7d\n                statusDistribution\x7b\n                    status\n                    amount\n                \x7d\n            \x7d\n        \x7d\n    \x7d\n\x7d\n\n"

/-- The API endpoint (line 65). -/
def GRAPH_QL_URL : String := "https://graphql.anilist.co/"

/-- `query_graphql` (lines 68-102): build the POST request from `query`,
`variables` and `url`, send it, and return the parsed JSON body if the status
code is 200, else `None`. The transport outcome is the explicit `response`
argument. (The Python parameter is named `variables`; that word is reserved in
Lean, so the parameter is named `vars` here.) -/
def query_graphql (query : String) (vars : Variables) (url : String)
    (response : HttpResponse) : Option ResponseData :=
  if response.status_code == 200 then
    some response.json
  else
    none

/-- The observable outcome of one call to `extract_graphql_data`: the state of
the global `VARIABLES` after the call, the printed lines, the clipboard write
(if any), the process exit (if any, with the exit status), whether
`process_graphql` ran (and its result), and whether `tabulate_anichart_data`
ran. -/
structure RunResult where
  vars : Variables
  printed : List String
  clipboard : Option String
  exit_code : Option Nat
  processed : Option (List Row)
  tabulated : Bool
deriving DecidableEq

/-- `extract_graphql_data` (lines 177-208): overwrite the truthy parameters
into the global `VARIABLES`, query, and on `None` print the message and call
`exit()` — Python's `exit()` with no argument raises `SystemExit(None)`, which
terminates the process with exit status 0. Otherwise process and tabulate. -/
def extract_graphql_data (vars0 : Variables) (status_var : Option (List String))
    (format_var : Option (List String)) (year_var : Option Int)
    (season_var : Option String) (response : HttpResponse) : RunResult :=
  let vars := override_variables vars0 status_var format_var year_var season_var
  match query_graphql QUERY_STRING vars GRAPH_QL_URL response with
  | none =>
      { vars := vars,
        printed := ["No data returned from query graphql!"],
        clipboard := none,
        exit_code := some 0,
        processed := none,
        tabulated := false }
  | some response_data =>
      let processed_data := process_graphql response_data
      let t := tabulate_anichart_data processed_data
      { vars := vars,
        printed := t.printed,
        clipboard := some t.clipboard,
        exit_code := none,
        processed := some processed_data,
        tabulated := true }

/-- A media entry titled "Alpha" (used in concrete test responses). -/
def mAlpha : Media :=
  { title := { romaji := some (some "Arufa"), english := some (some "Alpha"), native := some none },
    startDate := { year := some 2024, month := some 7, day := some 4 },
    endDate := { year := none, month := none, day := none } }

/-- A media entry titled "Bravo" (used in concrete test responses). -/
def mBravo : Media :=
  { title := { romaji := some (some "Burabo"), english := some (some "Bravo"), native := some none },
    startDate := { year := some 2024, month := some 7, day := some 3 },
    endDate := { year := none, month := none, day := none } }

/-- A response body whose media list holds the "Bravo" entry before the
"Alpha" entry. -/
def rdBA : ResponseData :=
  { data := { Page := { media := [mBravo, mAlpha] } } }

/-- A 200 response carrying `rdBA`. -/
def resp200 : HttpResponse := { status_code := 200, json := rdBA }

/-- A 404 response (its body is never parsed by the script on this path). -/
def resp404 : HttpResponse := { status_code := 404, json := rdBA }

/-- A media entry whose `romaji` key is present with value `null`, whose
`english` is "Foo", and whose start date has a `null` year (the spec's two
worked examples combined). -/
def mFoo : Media :=
  { title := { romaji := some none, english := some (some "Foo"), native := none },
    startDate := { year := none, month := some 5, day := some 1 },
    endDate := { year := none, month := none, day := none } }

/-- A media entry whose title object has no `english` key at all. -/
def mNoEng : Media :=
  { title := { romaji := some (some "Kagi"), english := none, native := none },
    startDate := { year := some 2024, month := some 1, day := some 2 },
    endDate := { year := none, month := none, day := none } }

/-- Identical to `mNoEng` except the `english` key is present with value `null`. -/
def mNullEng : Media :=
  { title := { romaji := some (some "Kagi"), english := some none, native := none },
    startDate := { year := some 2024, month := some 1, day := some 2 },
    endDate := { year := none, month := none, day := none } }

/-- A media entry titled "Zed". -/
def mZed : Media :=
  { title := { romaji := some (some "Zeddo"), english := some (some "Zed"), native := none },
    startDate := { year := some 2024, month := some 2, day := some 9 },
    endDate := { year := none, month := none, day := none } }

/-- A response whose media list holds the "Zed" entry before an entry with no
English title; after sorting, the empty-titled row comes first. -/
def rdEZ : ResponseData :=
  { data := { Page := { media := [mZed, mNoEng] } } }

/-! ## Helper lemmas (shared) -/

/-- `process_graphql` is the insertion sort of the input-order extracted rows. -/
theorem process_graphql_eq (rd : ResponseData) :
    process_graphql rd = List.insertionSort rowLe (rd.data.Page.media.map extract_row) :=
  rfl

/-- `rowLe` restated as `≤` on the character lists of the English titles. -/
theorem rowLe_iff {a b : Row} : rowLe a b ↔ a.english_name.data ≤ b.english_name.data :=
  not_lt

/-- Below a `rowLe`-greater row with an empty English title, every English
title is empty. -/
theorem english_eq_empty_of_rowLe {a b : Row} (h : rowLe a b)
    (hb : b.english_name = "") : a.english_name = "" := by
  have h1 : a.english_name.data ≤ b.english_name.data := rowLe_iff.mp h
  have h2 : b.english_name.data = [] := by rw [hb]
  rw [h2] at h1
  exact String.ext ((le_antisymm h1 List.nil_le).trans rfl)

/-- Stability of the embedded sort: filtering by any predicate that only keeps
mutually `rowLe`-equivalent rows (e.g. rows of one fixed English title) commutes
with sorting, so such rows keep their relative input order. -/
theorem filter_insertionSort_rowLe (l : List Row) (p : Row → Bool)
    (hp : ∀ a b, p a = true → p b = true → rowLe a b) :
    (List.insertionSort rowLe l).filter p = l.filter p := by
  have h1 : (l.filter p).Pairwise rowLe := by
    refine List.pairwise_of_forall_mem_list ?_
    intro a ha b hb
    exact hp a b (List.of_mem_filter ha) (List.of_mem_filter hb)
  have h2 : List.Sublist (l.filter p) (List.insertionSort rowLe l) :=
    List.sublist_insertionSort h1 (List.filter_sublist l)
  have h5 : (l.filter p).filter p = l.filter p := by
    rw [List.filter_filter]
    simp
  have h3 : List.Sublist (l.filter p) ((List.insertionSort rowLe l).filter p) :=
    h5 ▸ h2.filter p
  have h6 : List.Perm ((List.insertionSort rowLe l).filter p) (l.filter p) :=
    (List.perm_insertionSort rowLe l).filter p
  exact (h3.eq_of_length h6.length_eq.symm).symm

/-- In a `rowLe`-sorted list, every row with an empty English title sits
strictly before every row with a non-empty English title. -/
theorem sorted_empty_first (l : List Row) (hs : l.Sorted rowLe) :
    ∀ i j (hi : i < l.length) (hj : j < l.length),
      (l.get ⟨i, hi⟩).english_name = "" → (l.get ⟨j, hj⟩).english_name ≠ "" → i < j := by
  intro i j hi hj hempty hne
  by_contra hij
  push_neg at hij
  rcases Nat.lt_or_ge j i with hlt | hge
  · have hr : rowLe (l.get ⟨j, hj⟩) (l.get ⟨i, hi⟩) :=
      List.pairwise_iff_get.mp hs ⟨j, hj⟩ ⟨i, hi⟩ hlt
    exact hne (english_eq_empty_of_rowLe hr hempty)
  · have heq : i = j := le_antisymm hge hij
    subst heq
    exact hne hempty

/-- The global `VARIABLES` state after a call is exactly the override of the
state before the call, on both the no-data path and the success path. -/
theorem extract_graphql_data_vars (v : Variables) (sv fv : Option (List String))
    (yv : Option Int) (sev : Option String) (resp : HttpResponse) :
    (extract_graphql_data v sv fv yv sev resp).vars = override_variables v sv fv yv sev := by
  cases hq : query_graphql QUERY_STRING (override_variables v sv fv yv sev) GRAPH_QL_URL resp <;>
    simp [extract_graphql_data, hq]

/-- The `status` entry after the override block. -/
theorem override_variables_status (v : Variables) (sv fv : Option (List String))
    (yv : Option Int) (sev : Option String) :
    (override_variables v sv fv yv sev).status =
      if truthyList sv then sv.getD v.status else v.status := by
  cases hs : truthyList sv <;> cases hf : truthyList fv <;> cases hy : truthyInt yv <;>
    cases hse : truthyStr sev <;> simp [override_variables, hs, hf, hy, hse]

/-- The `format` entry after the override block. -/
theorem override_variables_format (v : Variables) (sv fv : Option (List String))
    (yv : Option Int) (sev : Option String) :
    (override_variables v sv fv yv sev).format =
      if truthyList fv then fv.getD v.format else v.format := by
  cases hs : truthyList sv <;> cases hf : truthyList fv <;> cases hy : truthyInt yv <;>
    cases hse : truthyStr sev <;> simp [override_variables, hs, hf, hy, hse]

/-- The `year` entry after the override block. -/
theorem override_variables_year (v : Variables) (sv fv : Option (List String))
    (yv : Option Int) (sev : Option String) :
    (override_variables v sv fv yv sev).year =
      if truthyInt yv then yv.getD v.year else v.year := by
  cases hs : truthyList sv <;> cases hf : truthyList fv <;> cases hy : truthyInt yv <;>
    cases hse : truthyStr sev <;> simp [override_variables, hs, hf, hy, hse]

/-- The `season` entry after the override block. -/
theorem override_variables_season (v : Variables) (sv fv : Option (List String))
    (yv : Option Int) (sev : Option String) :
    (override_variables v sv fv yv sev).season =
      if truthyStr sev then sev.getD v.season else v.season := by
  cases hs : truthyList sv <;> cases hf : truthyList fv <;> cases hy : truthyInt yv <;>
    cases hse : truthyStr sev <;> simp [override_variables, hs, hf, hy, hse]

/-! ## Claim theorems -/

/-- Claim C1: for every response whose `data.Page.media` list is present (in
the typed embedding every `ResponseData` carries that list), `process_graphql`
produces exactly one output row per media entry: the output length equals the
media list length, and no entry is dropped — every entry's extracted row (with
its fallbacks applied) appears in the output. -/
theorem C1_one_row_per_entry :
    ∀ rd : ResponseData,
      (process_graphql rd).length = rd.data.Page.media.length ∧
      ∀ e ∈ rd.data.Page.media, extract_row e ∈ process_graphql rd := by
  intro rd
  rw [process_graphql_eq]
  constructor
  · rw [List.length_insertionSort, List.length_map]
  · intro e he
    exact (List.mem_insertionSort rowLe).mpr (List.mem_map_of_mem extract_row he)

/-- Witness for C1 at the concrete two-entry response `rdBA`. -/
theorem C1_one_row_per_entry_witness :
    (process_graphql rdBA).length = rdBA.data.Page.media.length ∧
    extract_row mBravo ∈ process_graphql rdBA :=
  ⟨(C1_one_row_per_entry rdBA).1,
   (C1_one_row_per_entry rdBA).2 mBravo (by decide)⟩

/-- Claim C2: the start-date component of a row is `"day.month.year"` when all
three components are non-null, and exactly the fallback `"1.1.1999"` when any
one is null; in particular `{year 2024, month 7, day 3}` (entry `mBravo`)
yields `"3.7.2024"` and `{year null, month 5, day 1}` (entry `mFoo`) yields
`"1.1.1999"`. -/
theorem C2_start_date_formatting :
    (∀ e : Media,
        (∀ y m d : Int, e.startDate.year = some y → e.startDate.month = some m →
            e.startDate.day = some d →
            (extract_row e).start_date_str = toString d ++ "." ++ toString m ++ "." ++ toString y) ∧
        ((e.startDate.year = none ∨ e.startDate.month = none ∨ e.startDate.day = none) →
            (extract_row e).start_date_str = "1.1.1999")) ∧
    (extract_row mBravo).start_date_str = "3.7.2024" ∧
    (extract_row mFoo).start_date_str = "1.1.1999" := by
  refine ⟨fun e => ⟨?_, ?_⟩, by decide, by decide⟩
  · intro y m d hy hm hd
    simp [extract_row, hy, hm, hd, start_date_format]
  · intro h
    have hfb : start_date_format 1 1 1999 = "1.1.1999" := by decide
    rcases h with h | h | h <;>
      cases hy : e.startDate.year <;> cases hm : e.startDate.month <;>
        cases hd : e.startDate.day <;> simp_all [extract_row, hfb]

/-- Witness for C2: the all-present clause applied at `mBravo` and the
fallback clause applied at `mFoo` (null year). -/
theorem C2_start_date_formatting_witness :
    (extract_row mBravo).start_date_str =
      toString (3 : Int) ++ "." ++ toString (7 : Int) ++ "." ++ toString (2024 : Int) ∧
    (extract_row mFoo).start_date_str = "1.1.1999" :=
  ⟨(C2_start_date_formatting.1 mBravo).1 2024 7 3 rfl rfl rfl,
   (C2_start_date_formatting.1 mFoo).2 (Or.inl rfl)⟩

/-- Claim C3: the romaji and english components equal the corresponding title
field when present and non-null, and equal `""` both when the key is absent and
when it is `null`; `mFoo` (`romaji = null`, `english = "Foo"`) yields
`["", "Foo", ...]`, and a missing `english` key (`mNoEng`) produces the same
row as an explicit `english = null` (`mNullEng`). -/
theorem C3_title_fallbacks :
    (∀ e : Media,
        (∀ s, e.title.romaji = some (some s) → (extract_row e).romaji_name = s) ∧
        ((e.title.romaji = none ∨ e.title.romaji = some none) →
            (extract_row e).romaji_name = "") ∧
        (∀ s, e.title.english = some (some s) → (extract_row e).english_name = s) ∧
        ((e.title.english = none ∨ e.title.english = some none) →
            (extract_row e).english_name = "")) ∧
    extract_row mFoo =
      { romaji_name := "", english_name := "Foo", start_date_str := "1.1.1999" } ∧
    extract_row mNoEng = extract_row mNullEng := by
  refine ⟨fun e => ⟨?_, ?_, ?_, ?_⟩, by decide, by decide⟩
  · intro s h
    simp [extract_row, h]
  · intro h
    rcases h with h | h <;> simp [extract_row, h]
  · intro s h
    simp [extract_row, h]
  · intro h
    rcases h with h | h <;> simp [extract_row, h]

/-- Witness for C3: all four clauses applied at the concrete entry `mFoo`
(null romaji, english "Foo"). -/
theorem C3_title_fallbacks_witness :
    (extract_row mFoo).romaji_name = "" ∧
    (extract_row mFoo).english_name = "Foo" ∧
    (extract_row mNoEng).english_name = "" := by
  refine ⟨(C3_title_fallbacks.1 mFoo).2.1 (Or.inr rfl),
          (C3_title_fallbacks.1 mFoo).2.2.1 "Foo" rfl,
          (C3_title_fallbacks.1 mNoEng).2.2.2 (Or.inl rfl)⟩

/-- Claim C4: the rows delivered to presentation are a permutation of the
extracted rows sorted by the English-title component under lexicographic,
case-sensitive string order (`rowLe`); the sort is stable (rows with equal
English titles keep their relative input order, stated via filters by a fixed
title); rows with an empty English title precede every row with a non-empty
(in particular printable-initial) English title; and end-to-end, the 200
response `resp200` with entries titled "Bravo" then "Alpha" delivers the Alpha
row before the Bravo row. -/
theorem C4_sorted_delivery :
    (∀ rd : ResponseData,
        List.Perm (process_graphql rd) (rd.data.Page.media.map extract_row) ∧
        (process_graphql rd).Sorted rowLe ∧
        (∀ k : String,
          (process_graphql rd).filter (fun r => r.english_name == k) =
            (rd.data.Page.media.map extract_row).filter (fun r => r.english_name == k)) ∧
        (∀ i j (hi : i < (process_graphql rd).length) (hj : j < (process_graphql rd).length),
          ((process_graphql rd).get ⟨i, hi⟩).english_name = "" →
          ((process_graphql rd).get ⟨j, hj⟩).english_name ≠ "" → i < j)) ∧
    (extract_graphql_data VARIABLES none none none none resp200).processed =
      some [ { romaji_name := "Arufa", english_name := "Alpha", start_date_str := "4.7.2024" },
             { romaji_name := "Burabo", english_name := "Bravo", start_date_str := "3.7.2024" } ] := by
  refine ⟨fun rd => ⟨?_, ?_, ?_, ?_⟩, by decide⟩
  · rw [process_graphql_eq]
    exact List.perm_insertionSort rowLe _
  · rw [process_graphql_eq]
    exact List.sorted_insertionSort rowLe _
  · intro k
    rw [process_graphql_eq]
    refine filter_insertionSort_rowLe _ _ ?_
    intro a b ha hb
    have ha' : a.english_name = k := by simpa using ha
    have hb' : b.english_name = k := by simpa using hb
    exact rowLe_iff.mpr (le_of_eq (by rw [ha', hb']))
  · exact sorted_empty_first _ (by rw [process_graphql_eq]; exact List.sorted_insertionSort rowLe _)

/-- Witness for C4: permutation and stability-filter clauses at `rdBA`, and the
empty-titles-first clause at `rdEZ` (whose sorted output has the untitled row
at index 0 and "Zed" at index 1). -/
theorem C4_sorted_delivery_witness :
    List.Perm (process_graphql rdBA) (rdBA.data.Page.media.map extract_row) ∧
    (process_graphql rdBA).filter (fun r => r.english_name == "Alpha") =
      (rdBA.data.Page.media.map extract_row).filter (fun r => r.english_name == "Alpha") ∧
    (0 : Nat) < 1 :=
  ⟨(C4_sorted_delivery.1 rdBA).1,
   (C4_sorted_delivery.1 rdBA).2.2.1 "Alpha",
   (C4_sorted_delivery.1 rdEZ).2.2.2 0 1 (by decide) (by decide) (by decide) (by decide)⟩

/-- Claim C5 counterexample: `process_graphql` does not output rows in input
order — on `rdBA` (media order "Bravo", "Alpha") its output differs from the
input-order extracted rows, because line 147 returns `sorted(...)`. -/
theorem C5_input_order_counterexample :
    process_graphql rdBA ≠ rdBA.data.Page.media.map extract_row := by
  decide

/-- Claim C5 as amended: `process_graphql` builds the intermediate extracted
list in input order (one row per entry, i-th row from the i-th entry), but the
list it returns is that list sorted by English title — a sorted permutation of
the input-order rows; sorting happens inside `process_graphql`, not in a later
step. -/
theorem C5_extraction_returns_sorted :
    ∀ rd : ResponseData,
      (∀ i (hi : i < rd.data.Page.media.length),
          (rd.data.Page.media.map extract_row).get
              ⟨i, by rw [List.length_map]; exact hi⟩ =
            extract_row (rd.data.Page.media.get ⟨i, hi⟩)) ∧
      List.Perm (process_graphql rd) (rd.data.Page.media.map extract_row) ∧
      (process_graphql rd).Sorted rowLe := by
  intro rd
  refine ⟨fun i hi => by simp, ?_, ?_⟩ <;> rw [process_graphql_eq]
  · exact List.perm_insertionSort rowLe _
  · exact List.sorted_insertionSort rowLe _

/-- Witness for C5 (amended): the clauses instantiated at `rdBA`, index 0. -/
theorem C5_extraction_returns_sorted_witness :
    (rdBA.data.Page.media.map extract_row).get ⟨0, by decide⟩ =
      extract_row (rdBA.data.Page.media.get ⟨0, by decide⟩) ∧
    List.Perm (process_graphql rdBA) (rdBA.data.Page.media.map extract_row) :=
  ⟨(C5_extraction_returns_sorted rdBA).1 0 (by decide),
   (C5_extraction_returns_sorted rdBA).2.1⟩

/-- Claim C6: `query_graphql` returns the parsed JSON body exactly when the
response status code is 200, and `None` for every other status code, not
distinguishing among non-200 statuses. -/
theorem C6_query_status_handling :
    ∀ (q : String) (v : Variables) (u : String) (resp : HttpResponse),
      (resp.status_code = 200 → query_graphql q v u resp = some resp.json) ∧
      (resp.status_code ≠ 200 → query_graphql q v u resp = none) := by
  intro q v u resp
  constructor <;> intro h <;> simp [query_graphql, h]

/-- Witness for C6 at the concrete 200 and 404 responses. -/
theorem C6_query_status_handling_witness :
    query_graphql QUERY_STRING VARIABLES GRAPH_QL_URL resp200 = some resp200.json ∧
    query_graphql QUERY_STRING VARIABLES GRAPH_QL_URL resp404 = none :=
  ⟨(C6_query_status_handling QUERY_STRING VARIABLES GRAPH_QL_URL resp200).1 rfl,
   (C6_query_status_handling QUERY_STRING VARIABLES GRAPH_QL_URL resp404).2 (by decide)⟩

/-- Claim C7 counterexample: on a non-200 response the script prints the
diagnostic and terminates before processing/tabulating — but via Python's
`exit()` with no argument, i.e. `SystemExit(None)`, whose process exit status
is 0, not non-zero as the claim states. -/
theorem C7_exit_status_counterexample :
    (extract_graphql_data VARIABLES none none none none resp404).printed =
      ["No data returned from query graphql!"] ∧
    (extract_graphql_data VARIABLES none none none none resp404).processed = none ∧
    (extract_graphql_data VARIABLES none none none none resp404).tabulated = false ∧
    (extract_graphql_data VARIABLES none none none none resp404).exit_code = some 0 ∧
    ¬ (∃ c : Nat, c ≠ 0 ∧
        (extract_graphql_data VARIABLES none none none none resp404).exit_code = some c) := by
  refine ⟨by decide, by decide, by decide, by decide, ?_⟩
  rintro ⟨c, hc, hcode⟩
  have h0 : (extract_graphql_data VARIABLES none none none none resp404).exit_code =
      some 0 := by decide
  rw [h0] at hcode
  exact hc (Option.some.inj hcode).symm

/-- Claim C7 as amended: whenever `query_graphql` yields `None` (any non-200
response), `extract_graphql_data` prints the diagnostic message and terminates
the process immediately — with exit status 0, since `exit()` is called with no
argument; `process_graphql` and `tabulate_anichart_data` are never invoked, so
nothing is printed as a table or copied to the clipboard. -/
theorem C7_no_data_terminates :
    ∀ (v : Variables) (sv fv : Option (List String)) (yv : Option Int)
      (sev : Option String) (resp : HttpResponse),
      resp.status_code ≠ 200 →
      (extract_graphql_data v sv fv yv sev resp).printed =
          ["No data returned from query graphql!"] ∧
      (extract_graphql_data v sv fv yv sev resp).exit_code = some 0 ∧
      (extract_graphql_data v sv fv yv sev resp).processed = none ∧
      (extract_graphql_data v sv fv yv sev resp).tabulated = false ∧
      (extract_graphql_data v sv fv yv sev resp).clipboard = none := by
  intro v sv fv yv sev resp h
  have hq : query_graphql QUERY_STRING (override_variables v sv fv yv sev) GRAPH_QL_URL resp =
      none := by
    simp [query_graphql, h]
  simp [extract_graphql_data, hq]

/-- Witness for C7 (amended) at the concrete 404 response. -/
theorem C7_no_data_terminates_witness :
    (extract_graphql_data VARIABLES none none none none resp404).printed =
        ["No data returned from query graphql!"] ∧
    (extract_graphql_data VARIABLES none none none none resp404).exit_code = some 0 :=
  ⟨(C7_no_data_terminates VARIABLES none none none none resp404 (by decide)).1,
   (C7_no_data_terminates VARIABLES none none none none resp404 (by decide)).2.1⟩

/-- Claim C8: each of the four optional parameters of `extract_graphql_data`
replaces the corresponding entry of the global parameter mapping exactly when
the provided value is truthy (a non-`None`, non-empty / non-zero value); a
parameter left `None` or otherwise falsy leaves its entry unchanged, and no
parameter affects any other entry (each entry is fully determined by its own
parameter and its previous value). -/
theorem C8_truthy_overrides :
    ∀ (v : Variables) (sv fv : Option (List String)) (yv : Option Int)
      (sev : Option String) (resp : HttpResponse),
      ((∀ l, sv = some l → l ≠ [] →
          (extract_graphql_data v sv fv yv sev resp).vars.status = l) ∧
       (truthyList sv = false →
          (extract_graphql_data v sv fv yv sev resp).vars.status = v.status)) ∧
      ((∀ l, fv = some l → l ≠ [] →
          (extract_graphql_data v sv fv yv sev resp).vars.format = l) ∧
       (truthyList fv = false →
          (extract_graphql_data v sv fv yv sev resp).vars.format = v.format)) ∧
      ((∀ n, yv = some n → n ≠ 0 →
          (extract_graphql_data v sv fv yv sev resp).vars.year = n) ∧
       (truthyInt yv = false →
          (extract_graphql_data v sv fv yv sev resp).vars.year = v.year)) ∧
      ((∀ s, sev = some s → s ≠ "" →
          (extract_graphql_data v sv fv yv sev resp).vars.season = s) ∧
       (truthyStr sev = false →
          (extract_graphql_data v sv fv yv sev resp).vars.season = v.season)) := by
  intro v sv fv yv sev resp
  have hv := extract_graphql_data_vars v sv fv yv sev resp
  refine ⟨⟨?_, ?_⟩, ⟨?_, ?_⟩, ⟨?_, ?_⟩, ⟨?_, ?_⟩⟩ <;> rw [hv]
  · intro l hl hne
    subst hl
    rw [override_variables_status]
    simp [truthyList, hne]
  · intro h
    rw [override_variables_status, h]
    simp
  · intro l hl hne
    subst hl
    rw [override_variables_format]
    simp [truthyList, hne]
  · intro h
    rw [override_variables_format, h]
    simp
  · intro n hn hne
    subst hn
    rw [override_variables_year]
    simp [truthyInt, hne]
  · intro h
    rw [override_variables_year, h]
    simp
  · intro s hs hne
    subst hs
    rw [override_variables_season]
    simp [truthyStr, String.isEmpty_iff, hne]
  · intro h
    rw [override_variables_season, h]
    simp

/-- Witness for C8: a call overriding `status` (truthy list) and `season`
(truthy string), leaving `format` as `None` and `year` as the falsy `0`. -/
theorem C8_truthy_overrides_witness :
    (extract_graphql_data VARIABLES (some ["FINISHED"]) none (some 0)
        (some "WINTER") resp404).vars.status = ["FINISHED"] ∧
    (extract_graphql_data VARIABLES (some ["FINISHED"]) none (some 0)
        (some "WINTER") resp404).vars.format = VARIABLES.format ∧
    (extract_graphql_data VARIABLES (some ["FINISHED"]) none (some 0)
        (some "WINTER") resp404).vars.year = VARIABLES.year ∧
    (extract_graphql_data VARIABLES (some ["FINISHED"]) none (some 0)
        (some "WINTER") resp404).vars.season = "WINTER" :=
  ⟨(C8_truthy_overrides VARIABLES (some ["FINISHED"]) none (some 0) (some "WINTER")
      resp404).1.1 ["FINISHED"] rfl (by decide),
   (C8_truthy_overrides VARIABLES (some ["FINISHED"]) none (some 0) (some "WINTER")
      resp404).2.1.2 (by decide),
   (C8_truthy_overrides VARIABLES (some ["FINISHED"]) none (some 0) (some "WINTER")
      resp404).2.2.1.2 (by decide),
   (C8_truthy_overrides VARIABLES (some ["FINISHED"]) none (some 0) (some "WINTER")
      resp404).2.2.2.1 "WINTER" rfl (by decide)⟩

/-- Claim C9 counterexample: a row's line is not romaji, tab, english, tab,
date, newline — the format string `"{} \t {} \t {} \n"` puts spaces around
each tab and before the newline, so for the row `["a", "b", "c"]` the produced
text differs from `"a\tb\tc\n"`. -/
theorem C9_line_format_counterexample :
    (tabulate_anichart_data [⟨"a", "b", "c"⟩]).clipboard ≠
      "a" ++ "\t" ++ "b" ++ "\t" ++ "c" ++ "\n" := by
  decide

/-- Claim C9 as amended: the output text is the concatenation, in list order,
of one line per row of the form romaji, space, tab, space, english, space,
tab, space, date, space, newline (the template `"{} \t {} \t {} \n"` read with
its spaces); the exact same string is printed (surrounded by the separator
lines) and copied to the clipboard, and the printed entry count equals the
number of rows. -/
theorem C9_tabulate_output :
    ∀ rows : List Row,
      (tabulate_anichart_data rows).clipboard =
        String.join (rows.map (fun e =>
          e.romaji_name ++ " \t " ++ e.english_name ++ " \t "
            ++ e.start_date_str ++ " \n")) ∧
      (tabulate_anichart_data rows).printed =
        ["\n--------------------\n",
         (tabulate_anichart_data rows).clipboard,
         "\n\n--------------------\n\n",
         "Elements: " ++ toString rows.length] := by
  intro rows
  refine ⟨?_, rfl⟩
  show rows.foldl _ "" = _
  rw [String.join, List.foldl_map]

/-- Claim C10: parameter overrides are written into the process-wide variables
state, so an override from one call persists as the effective value for every
later call; a later call passing `None` everywhere does not restore the
module-level defaults but reuses the previously overridden state — concretely,
after overriding the year to 2025, a second all-`None` call still runs with
year 2025 while the module default is 2024. -/
theorem C10_overrides_persist :
    (∀ (v : Variables) (sv fv : Option (List String)) (yv : Option Int)
        (sev : Option String) (resp resp' : HttpResponse),
        (extract_graphql_data (extract_graphql_data v sv fv yv sev resp).vars
            none none none none resp').vars =
          (extract_graphql_data v sv fv yv sev resp).vars) ∧
    (extract_graphql_data
        (extract_graphql_data VARIABLES none none (some 2025) none resp404).vars
        none none none none resp404).vars.year = 2025 ∧
    VARIABLES.year = 2024 := by
  refine ⟨?_, by decide, by decide⟩
  intro v sv fv yv sev resp resp'
  rw [extract_graphql_data_vars]
  rfl

end ReadGraphql
